import Mathlib

/-!
Shallow embedding of the scope-classification and conversation-orchestration
logic of the Schengen-visa chat front end.

The primary source is the first document of `src/app/page.tsx` (the variant
whose line numbers the claims cite): its normalization pipeline, greeting and
capability short-circuits, the positive-keyword scope check
(`isSchengenVisaQuery`), the canned reply constants, the `onSubmit` handler,
`clearChat`, and the `localStorage` snapshot functions
(`loadMessagesFromStorage` / `saveMessagesToStorage`).  The variant in
`src/unnamed/part_000`, which gates the capability short-circuit on the first
user message, is embedded in the `Part0` namespace.

Machine-level caveats of the embedding: JavaScript `toLowerCase` and the
regexes `/\s+/` and `/[^a-z ]/` are modelled over the ASCII range, which
covers every string the source manipulates; `Date.now()` is passed in as an
explicit `now : Nat` parameter; `localStorage` is a single cell modelled by
`Stored` (missing value, present-but-unparsable value, or a parsed JSON
value), since `loadMessagesFromStorage` only ever observes the stored string
through `JSON.parse` plus the property reads `parsed.messages` and
`parsed.durations`.
-/

/-- ASCII lower-casing of a single character, as `toLowerCase` acts on the
letters appearing in the embedded texts. -/
def lowerChar (c : Char) : Char :=
  if 'A' ≤ c ∧ c ≤ 'Z' then Char.ofNat (c.toNat + 32) else c

/-- Whitespace recognised by the `/\s+/` regex and `trim`, restricted to the
ASCII whitespace characters. -/
def isWs (c : Char) : Bool :=
  c = ' ' || c = '\t' || c = '\n' || c = '\r' || c = '\x0b' || c = '\x0c'

/-- `replace(/\s+/g, " ")`: every maximal run of whitespace becomes one
space. -/
def collapseWs : List Char → List Char
  | [] => []
  | [c] => [if isWs c then ' ' else c]
  | c :: d :: cs =>
    if isWs c && isWs d then collapseWs (d :: cs)
    else (if isWs c then ' ' else c) :: collapseWs (d :: cs)

/-- `String.prototype.trim`: drop whitespace from both ends. -/
def trimList (cs : List Char) : List Char :=
  ((cs.dropWhile isWs).reverse.dropWhile isWs).reverse

/-- `trim` on strings. -/
def trimStr (s : String) : String := ⟨trimList s.data⟩

/-- The normalization pipeline of `onSubmit`:
`userText.toLowerCase().replace(/\?/g, "").replace(/\s+/g, " ").trim()`. -/
def normalizeText (s : String) : String :=
  ⟨trimList (collapseWs (((s.data.map lowerChar).filter (fun c => c ≠ '?'))))⟩

/-- `normalized.replace(/[^a-z ]/g, "").trim()`: keep lowercase letters and
spaces, then trim. -/
def cleanLetters (s : String) : String :=
  ⟨trimList (s.data.filter (fun c => ('a' ≤ c && c ≤ 'z') || c = ' '))⟩

/-- Whether the first list is an initial segment of the second. -/
def leadsWith : List Char → List Char → Bool
  | [], _ => true
  | _ :: _, [] => false
  | a :: as, b :: bs => a == b && leadsWith as bs

/-- Whether `needle` occurs as a contiguous subsequence of the haystack. -/
def containsSeq (needle : List Char) : List Char → Bool
  | [] => needle.isEmpty
  | b :: bs => leadsWith needle (b :: bs) || containsSeq needle bs

/-- JavaScript `String.prototype.includes`. -/
def strIncludes (s sub : String) : Bool := containsSeq sub.data s.data

/-- The classification verdicts of the spec: the four ways a submitted
message can be routed. -/
inductive Verdict
  | greeting
  | capabilityQuery
  | inScope
  | outOfScope
deriving DecidableEq, Repr

/-- Message roles (`role` field of a `UIMessage`). -/
inductive Role
  | user
  | assistant
deriving DecidableEq, Repr

/-- A chat message.  Every message the embedded code constructs carries a
single text part, recorded here as `text`. -/
structure Msg where
  id : String
  role : Role
  text : String
deriving DecidableEq, Repr

/-- JSON values, the image of `JSON.parse` on a well-formed stored string. -/
inductive Json
  | null
  | bool (b : Bool)
  | num (n : Int)
  | str (s : String)
  | arr (xs : List Json)
  | obj (fields : List (String × Json))

/-- The `localStorage` cell at `STORAGE_KEY`, seen through the only
observations `loadMessagesFromStorage` makes: the value can be absent
(`getItem` returns null), present but not valid JSON (`JSON.parse` throws),
or present and parsed to a JSON value. -/
inductive Stored
  | missing
  | corrupt
  | ok (parsed : Json)

/-- JavaScript property read `parsed.name` on a parsed JSON value:
defined only on objects, `none` standing for `undefined`. -/
def getField (j : Json) (name : String) : Option Json :=
  match j with
  | .obj fields => fields.lookup name
  | _ => none

/-- JavaScript truthiness of a possibly-undefined value. -/
def truthy : Option Json → Bool
  | none => false
  | some .null => false
  | some (.bool b) => b
  | some (.num n) => !(n == 0)
  | some (.str s) => !(s == "")
  | some (.arr _) => true
  | some (.obj _) => true

/-- JavaScript `v || dflt`. -/
def jsOr (v : Option Json) (dflt : Json) : Json :=
  match v with
  | some j => if truthy (some j) then j else dflt
  | none => dflt

namespace Page

/-- The `role` strings used when a message is serialised. -/
def roleString : Role → String
  | .user => "user"
  | .assistant => "assistant"

/-- Serialisation of one message, as `JSON.stringify` renders the
`UIMessage` values this page constructs. -/
def encodeMsg (m : Msg) : Json :=
  .obj [("id", .str m.id), ("role", .str (roleString m.role)),
        ("parts", .arr [.obj [("type", .str "text"), ("text", .str m.text)]])]

/-- Serialisation of the durations record. -/
def encodeDurations (ds : List (String × Nat)) : Json :=
  .obj (ds.map (fun p => (p.1, Json.num p.2)))

/-- `saveMessagesToStorage`: `setItem(STORAGE_KEY, JSON.stringify({messages,
durations}))`.  The success path is modelled; a `setItem` failure is logged
and swallowed by the source, which the spec treats as best-effort
persistence. -/
def saveMessagesToStorage (messages : List Msg) (durations : List (String × Nat)) : Stored :=
  .ok (.obj [("messages", .arr (messages.map encodeMsg)),
             ("durations", encodeDurations durations)])

/-- `loadMessagesFromStorage`: a missing item or a `JSON.parse` failure
yields the empty snapshot; otherwise the result is
`{messages: parsed.messages || [], durations: parsed.durations || {}}`,
with no validation of the shape of a truthy field. -/
def loadMessagesFromStorage (cell : Stored) : Json × Json :=
  match cell with
  | .missing => (.arr [], .obj [])
  | .corrupt => (.arr [], .obj [])
  | .ok parsed =>
    (jsOr (getField parsed "messages") (.arr []),
     jsOr (getField parsed "durations") (.obj []))

/-- The empty snapshot `{ messages: [], durations: {} }` as it is read back. -/
def emptySnapshot : Json × Json := (.arr [], .obj [])

/-- The `CAPABILITY_MESSAGE` constant (after `.trim()`). -/
def CAPABILITY_MESSAGE : String :=
  "I am built only for one thing: helping Indian students applying for Schengen visas.\n\nI can help you with:\n\n• Documents required\n• Financial proofs\n• Accommodation proofs\n• Transport proofs\n• Sponsorship\n• Insurance\n• Special category documents\n• Minor (under 18) requirements\n• Signatures and declarations\n• Interview prep questions\n\nI cannot answer anything outside these topics."

/-- The `OUT_OF_SCOPE_MESSAGE` constant (after `.trim()`). -/
def OUT_OF_SCOPE_MESSAGE : String :=
  "Sorry, I\x27m not built for that.\n\nI can only help Indian students with Schengen visa–related questions, such as documents required, financial proofs, accommodation, transport, sponsorship, insurance, special categories, minor requirements, signatures and interview preparation."

/-- The fixed greeting reply synthesized inline in `onSubmit`. -/
def GREETING_REPLY : String :=
  "Hi! I’m here to help Indian students with Schengen visas. Ask me about documents, proofs, or interview prep for your visa."

/-- Modelled from the spec: the welcome text imported from `@/config`, a file
outside `src/`; no claim constrains its content. -/
def WELCOME_MESSAGE : String := "WELCOME_MESSAGE"

/-- The positive keyword list of `isSchengenVisaQuery`. -/
def keywords : List String :=
  ["schengen", "visa", "vfs", "embassy", "consulate", "appointment",
   "biometric", "passport", "travel", "itinerary", "flight", "ticket",
   "accommodation", "hotel", "hostel", "stay", "university", "college",
   "admission", "offer letter", "student visa", "type d", "short stay",
   "long stay", "national visa", "france", "germany", "italy", "spain",
   "netherlands", "estonia", "latvia", "lithuania", "belgium", "austria",
   "portugal", "documents", "document", "checklist", "sponsorship",
   "sponsor", "insurance", "medical", "pcc", "police clearance",
   "proof of funds", "bank statement", "blocked account"]

/-- `isSchengenVisaQuery`: some keyword occurs as a substring of the
normalized text. -/
def isSchengenVisaQuery (normalized : String) : Bool :=
  keywords.any (fun k => strIncludes normalized k)

/-- The greeting token list of `onSubmit`. -/
def greetings : List String := ["hi", "hello", "hey", "hii", "heyy", "helo"]

/-- The capability phrase list of `onSubmit`. -/
def capabilityPhrases : List String :=
  ["what can you do", "what can you do for me", "what can u do",
   "what can u do for me", "who are you", "who r u",
   "what are you built for", "what are u built for",
   "what are you made for", "what are u made for"]

/-- The scope classifier implemented by the branch cascade of `onSubmit`,
applied to the trimmed user text: greeting check on the letters-only cleaned
text, capability check on the normalized text, then the positive keyword
check; first match wins. -/
def classify (userText : String) : Verdict :=
  let normalized := normalizeText userText
  let cleaned := cleanLetters normalized
  if greetings.contains cleaned then .greeting
  else if capabilityPhrases.contains normalized then .capabilityQuery
  else if !(isSchengenVisaQuery normalized) then .outOfScope
  else .inScope

/-- The in-memory session state the orchestrator mutates: the message list,
the durations record, and the persisted `localStorage` cell. -/
structure AppState where
  messages : List Msg
  durations : List (String × Nat)
  store : Stored

/-- The body of `onSubmit` after the empty-text guard, parameterised over the
three classification devices it consults (greeting-token membership on the
cleaned text, capability-phrase membership on the normalized text, and the
positive keyword query check), so that independence from the classifier can
be stated.  Ids embed `Date.now()`, passed as `now`; the out-of-scope branch
stamps its assistant id with `Date.now() + 1` exactly as the source does.
The second component is the text handed to `sendMessage` when the message is
forwarded to the backend (`none` when a canned reply is synthesized or the
submission is rejected). -/
def onSubmitGen (isGreetingTok : String → Bool) (isCapabilityPhrase : String → Bool)
    (isQuery : String → Bool) (now : Nat) (s : AppState) (message : String) :
    AppState × Option String :=
  let userText := trimStr message
  if userText = "" then (s, none)
  else
    let normalized := normalizeText userText
    let cleaned := cleanLetters normalized
    if isGreetingTok cleaned then
      let userMsg : Msg := { id := "user-" ++ toString now, role := .user, text := userText }
      let assistantMsg : Msg :=
        { id := "assistant-" ++ toString now, role := .assistant, text := GREETING_REPLY }
      let newMessages := s.messages ++ [userMsg, assistantMsg]
      ({ messages := newMessages, durations := s.durations,
         store := saveMessagesToStorage newMessages s.durations }, none)
    else if isCapabilityPhrase normalized then
      let userMsg : Msg := { id := "user-" ++ toString now, role := .user, text := userText }
      let assistantMsg : Msg :=
        { id := "assistant-" ++ toString now, role := .assistant, text := CAPABILITY_MESSAGE }
      let newMessages := s.messages ++ [userMsg, assistantMsg]
      ({ messages := newMessages, durations := s.durations,
         store := saveMessagesToStorage newMessages s.durations }, none)
    else if !(isQuery normalized) then
      let userMsg : Msg := { id := "user-" ++ toString now, role := .user, text := userText }
      let assistantMsg : Msg :=
        { id := "assistant-" ++ toString (now + 1), role := .assistant,
          text := OUT_OF_SCOPE_MESSAGE }
      let newMessages := s.messages ++ [userMsg, assistantMsg]
      ({ messages := newMessages, durations := s.durations,
         store := saveMessagesToStorage newMessages s.durations }, none)
    else (s, some userText)

/-- `onSubmit` of `src/app/page.tsx`, with its actual classification
devices. -/
def onSubmit (now : Nat) (s : AppState) (message : String) : AppState × Option String :=
  onSubmitGen (fun cleaned => greetings.contains cleaned)
    (fun normalized => capabilityPhrases.contains normalized)
    isSchengenVisaQuery now s message

/-- `clearChat`: reset messages and durations to empty and persist that empty
snapshot.  Its body references no classification device. -/
def clearChat (_s : AppState) : AppState :=
  { messages := [], durations := [], store := saveMessagesToStorage [] [] }

/-- The welcome message constructed by the "Add welcome message once"
effect. -/
def welcomeMsg (now : Nat) : Msg :=
  { id := "welcome-" ++ toString now, role := .assistant, text := WELCOME_MESSAGE }

/-- The slice of component state the welcome effect touches: the message
list, the store, and the `welcomeMessageShownRef` flag. -/
structure WelcomeState where
  messages : List Msg
  store : Stored
  shown : Bool

/-- The "Add welcome message once" `useEffect`: when running on the client
with an empty loaded history and the ref unset, it installs the single
welcome message, persists `([welcomeMessage], {})`, and sets the ref. -/
def welcomeEffect (now : Nat) (isClient : Bool) (initialMessages : List Msg)
    (st : WelcomeState) : WelcomeState :=
  if isClient && initialMessages.length == 0 && !st.shown then
    { messages := [welcomeMsg now],
      store := saveMessagesToStorage [welcomeMsg now] [],
      shown := true }
  else st

end Page

namespace Part0

/-- The positive keyword list of `isSchengenVisaQuery` in
`src/unnamed/part_000`. -/
def keywords : List String :=
  ["schengen", "visa", "vfs", "embassy", "consulate", "appointment",
   "biometric", "passport", "travel", "itinerary", "flight", "ticket",
   "accommodation", "hotel", "hostel", "university", "admission",
   "offer letter", "student visa", "type d", "short stay", "long stay",
   "france", "germany", "italy", "spain", "netherlands", "documents",
   "document", "checklist", "sponsorship", "sponsor", "insurance",
   "medical", "pcc", "police clearance"]

/-- `isSchengenVisaQuery` of `src/unnamed/part_000`. -/
def isSchengenVisaQuery (normalized : String) : Bool :=
  keywords.any (fun k => strIncludes normalized k)

/-- The `introPhrases` list of the first-message-gated capability branch. -/
def introPhrases : List String :=
  ["what can you do for me", "what can u do for me", "what can you do",
   "who are you", "who r u", "what are you built for", "what are u built for"]

/-- The classifier implemented by `onSubmit` of `src/unnamed/part_000`: the
capability short-circuit fires only when this is the first user question and
the normalized text is one of the intro phrases; otherwise the positive
keyword check decides between refusal and forwarding.  This variant has no
greeting branch. -/
def classify (userText : String) (isFirstUserQuestion : Bool) : Verdict :=
  let normalized := normalizeText userText
  if isFirstUserQuestion && introPhrases.contains normalized then .capabilityQuery
  else if !(isSchengenVisaQuery normalized) then .outOfScope
  else .inScope

end Part0

/-- `v || d` falls through to the default when the value is falsy. -/
theorem jsOr_of_falsy {v : Option Json} {d : Json} (h : truthy v = false) :
    jsOr v d = d := by
  cases v with
  | none => rfl
  | some j => simp [jsOr, h]

/-- An `outOfScope` verdict of the page classifier means the greeting,
capability and keyword checks all failed. -/
theorem Page.of_classify_outOfScope {t : String} (h : Page.classify t = .outOfScope) :
    Page.greetings.contains (cleanLetters (normalizeText t)) = false
    ∧ Page.capabilityPhrases.contains (normalizeText t) = false
    ∧ Page.isSchengenVisaQuery (normalizeText t) = false := by
  unfold Page.classify at h
  by_cases hg : cleanLetters (normalizeText t) ∈ Page.greetings
  · simp [hg] at h
  · by_cases hc : normalizeText t ∈ Page.capabilityPhrases
    · simp [hg, hc] at h
    · by_cases hq : Page.isSchengenVisaQuery (normalizeText t) = true
      · simp [hg, hc, hq] at h
      · exact ⟨by simpa using hg, by simpa using hc, by simpa using hq⟩

/-- When all three checks fail, the page classifier forwards. -/
theorem Page.classify_eq_inScope {t : String}
    (hg : Page.greetings.contains (cleanLetters (normalizeText t)) = false)
    (hc : Page.capabilityPhrases.contains (normalizeText t) = false)
    (hq : Page.isSchengenVisaQuery (normalizeText t) = true) :
    Page.classify t = .inScope := by
  have hg' : cleanLetters (normalizeText t) ∉ Page.greetings := by simpa using hg
  have hc' : normalizeText t ∉ Page.capabilityPhrases := by simpa using hc
  unfold Page.classify
  simp [hg', hc', hq]

/-- The greeting branch of `onSubmit`, in closed form. -/
theorem Page.onSubmit_of_greeting (now : Nat) (s : Page.AppState) (raw : String)
    (h1 : ¬ trimStr raw = "")
    (hg : Page.greetings.contains (cleanLetters (normalizeText (trimStr raw))) = true) :
    Page.onSubmit now s raw =
      ({ messages := s.messages ++
           [{ id := "user-" ++ toString now, role := .user, text := trimStr raw },
            { id := "assistant-" ++ toString now, role := .assistant,
              text := Page.GREETING_REPLY }],
         durations := s.durations,
         store := Page.saveMessagesToStorage
           (s.messages ++
             [{ id := "user-" ++ toString now, role := .user, text := trimStr raw },
              { id := "assistant-" ++ toString now, role := .assistant,
                text := Page.GREETING_REPLY }]) s.durations }, none) := by
  have hg' : cleanLetters (normalizeText (trimStr raw)) ∈ Page.greetings := by simpa using hg
  unfold Page.onSubmit Page.onSubmitGen
  simp [h1, hg']

/-- The capability branch of `onSubmit`, in closed form. -/
theorem Page.onSubmit_of_capability (now : Nat) (s : Page.AppState) (raw : String)
    (h1 : ¬ trimStr raw = "")
    (hg : Page.greetings.contains (cleanLetters (normalizeText (trimStr raw))) = false)
    (hc : Page.capabilityPhrases.contains (normalizeText (trimStr raw)) = true) :
    Page.onSubmit now s raw =
      ({ messages := s.messages ++
           [{ id := "user-" ++ toString now, role := .user, text := trimStr raw },
            { id := "assistant-" ++ toString now, role := .assistant,
              text := Page.CAPABILITY_MESSAGE }],
         durations := s.durations,
         store := Page.saveMessagesToStorage
           (s.messages ++
             [{ id := "user-" ++ toString now, role := .user, text := trimStr raw },
              { id := "assistant-" ++ toString now, role := .assistant,
                text := Page.CAPABILITY_MESSAGE }]) s.durations }, none) := by
  have hg' : cleanLetters (normalizeText (trimStr raw)) ∉ Page.greetings := by simpa using hg
  have hc' : normalizeText (trimStr raw) ∈ Page.capabilityPhrases := by simpa using hc
  unfold Page.onSubmit Page.onSubmitGen
  simp [h1, hg', hc']

/-- The refusal branch of `onSubmit`, in closed form. -/
theorem Page.onSubmit_of_outOfScope (now : Nat) (s : Page.AppState) (raw : String)
    (h1 : ¬ trimStr raw = "")
    (hg : Page.greetings.contains (cleanLetters (normalizeText (trimStr raw))) = false)
    (hc : Page.capabilityPhrases.contains (normalizeText (trimStr raw)) = false)
    (hq : Page.isSchengenVisaQuery (normalizeText (trimStr raw)) = false) :
    Page.onSubmit now s raw =
      ({ messages := s.messages ++
           [{ id := "user-" ++ toString now, role := .user, text := trimStr raw },
            { id := "assistant-" ++ toString (now + 1), role := .assistant,
              text := Page.OUT_OF_SCOPE_MESSAGE }],
         durations := s.durations,
         store := Page.saveMessagesToStorage
           (s.messages ++
             [{ id := "user-" ++ toString now, role := .user, text := trimStr raw },
              { id := "assistant-" ++ toString (now + 1), role := .assistant,
                text := Page.OUT_OF_SCOPE_MESSAGE }]) s.durations }, none) := by
  have hg' : cleanLetters (normalizeText (trimStr raw)) ∉ Page.greetings := by simpa using hg
  have hc' : normalizeText (trimStr raw) ∉ Page.capabilityPhrases := by simpa using hc
  unfold Page.onSubmit Page.onSubmitGen
  simp [h1, hg', hc', hq]

/-- Claim C2: in the first-message-gated variant (`src/unnamed/part_000`),
classifying "What can you do" with the first-user-message flag true yields
`capabilityQuery`, and with the flag false yields `outOfScope`: the
capability branch does not fire and no other rule matches that text. -/
theorem capability_first_message_gate :
    Part0.classify "What can you do" true = .capabilityQuery
    ∧ Part0.classify "What can you do" false = .outOfScope :=
  ⟨by decide, by decide⟩

/-- Claim C3: a submission whose trimmed text is empty performs no state
change — the session state (history, durations, store) is returned exactly
as it was, nothing is forwarded — and the result does not depend on any of
the classification devices, i.e. the Scope Classifier is never invoked. -/
theorem empty_submission_rejected (g c q : String → Bool) (now : Nat)
    (s : Page.AppState) (raw : String) (h : trimStr raw = "") :
    Page.onSubmitGen g c q now s raw = (s, none)
    ∧ Page.onSubmit now s raw = (s, none) := by
  constructor
  · unfold Page.onSubmitGen
    simp [h]
  · unfold Page.onSubmit Page.onSubmitGen
    simp [h]

theorem empty_submission_rejected_witness :
    trimStr "   " = ""
    ∧ Page.onSubmitGen (fun _ => true) (fun _ => true) (fun _ => true) 0
        ⟨[], [], .missing⟩ "   " = (⟨[], [], .missing⟩, none)
    ∧ Page.onSubmit 0 ⟨[], [], .missing⟩ "   " = (⟨[], [], .missing⟩, none) :=
  ⟨by decide,
   (empty_submission_rejected (fun _ => true) (fun _ => true) (fun _ => true) 0
      ⟨[], [], .missing⟩ "   " (by decide)).1,
   (empty_submission_rejected (fun _ => true) (fun _ => true) (fun _ => true) 0
      ⟨[], [], .missing⟩ "   " (by decide)).2⟩

/-- Claim C4: every text that, after the normalization pipeline
(lower-casing, stripping question marks, collapsing whitespace) followed by
stripping all non-letter/space characters, equals one of the fixed greeting
tokens is classified `greeting` — original casing and a trailing "?" are
erased by that pipeline. -/
theorem greeting_token_classified (text : String)
    (h : Page.greetings.contains (cleanLetters (normalizeText text)) = true) :
    Page.classify text = .greeting := by
  have h' : cleanLetters (normalizeText text) ∈ Page.greetings := by simpa using h
  unfold Page.classify
  simp [h']

theorem greeting_token_classified_witness :
    Page.greetings.contains (cleanLetters (normalizeText "HeLLo?")) = true
    ∧ Page.classify "HeLLo?" = .greeting :=
  ⟨by decide, greeting_token_classified "HeLLo?" (by decide)⟩

/-- Claim C5: `clearChat` empties history and durations together, persists
the empty snapshot, and a subsequent `loadMessagesFromStorage` on the
resulting store returns the empty history and empty durations mapping.  Its
definition is a function of the session state alone and contains no call to
any classification device. -/
theorem clear_resets_and_persists_empty (s : Page.AppState) :
    (Page.clearChat s).messages = []
    ∧ (Page.clearChat s).durations = []
    ∧ (Page.clearChat s).store = Page.saveMessagesToStorage [] []
    ∧ Page.loadMessagesFromStorage (Page.clearChat s).store = Page.emptySnapshot :=
  ⟨rfl, rfl, rfl, rfl⟩

/-- Claim C6: submitting the same out-of-scope text twice in sequence
appends exactly two user messages and two assistant messages, and the two
assistant messages carry the same fixed `OUT_OF_SCOPE_MESSAGE` text, hence
byte-identical canned replies. -/
theorem out_of_scope_twice_byte_identical (now1 now2 : Nat) (s : Page.AppState)
    (raw : String) (h1 : ¬ trimStr raw = "")
    (hv : Page.classify (trimStr raw) = .outOfScope) :
    (Page.onSubmit now2 (Page.onSubmit now1 s raw).1 raw).1.messages =
      s.messages ++
        [{ id := "user-" ++ toString now1, role := .user, text := trimStr raw },
         { id := "assistant-" ++ toString (now1 + 1), role := .assistant,
           text := Page.OUT_OF_SCOPE_MESSAGE },
         { id := "user-" ++ toString now2, role := .user, text := trimStr raw },
         { id := "assistant-" ++ toString (now2 + 1), role := .assistant,
           text := Page.OUT_OF_SCOPE_MESSAGE }] := by
  obtain ⟨hg, hc, hq⟩ := Page.of_classify_outOfScope hv
  rw [Page.onSubmit_of_outOfScope now1 s raw h1 hg hc hq]
  rw [Page.onSubmit_of_outOfScope now2 _ raw h1 hg hc hq]
  simp

theorem out_of_scope_twice_byte_identical_witness :
    ¬ trimStr "tell me a joke" = ""
    ∧ Page.classify (trimStr "tell me a joke") = .outOfScope
    ∧ (Page.onSubmit 2 (Page.onSubmit 0 ⟨[], [], .missing⟩ "tell me a joke").1
         "tell me a joke").1.messages =
        [{ id := "user-0", role := .user, text := "tell me a joke" },
         { id := "assistant-1", role := .assistant, text := Page.OUT_OF_SCOPE_MESSAGE },
         { id := "user-2", role := .user, text := "tell me a joke" },
         { id := "assistant-3", role := .assistant, text := Page.OUT_OF_SCOPE_MESSAGE }] :=
  by
  refine ⟨by decide, by decide, ?_⟩
  have h := out_of_scope_twice_byte_identical 0 2 ⟨[], [], Stored.missing⟩
    "tell me a joke" (by decide) (by decide)
  simpa using h

/-- Claim C7: the message "I am an Indian applicant. What documents do I
need for France and Germany study visas?" is classified `inScope` by the
page classifier and, with the first-message flag false, by the gated
`part_000` variant; `onSubmit` forwards it to the backend rather than
synthesizing a canned reply. -/
theorem indian_applicant_documents_inScope :
    Page.classify
        "I am an Indian applicant. What documents do I need for France and Germany study visas?"
      = .inScope
    ∧ Part0.classify
        "I am an Indian applicant. What documents do I need for France and Germany study visas?"
        false = .inScope
    ∧ (Page.onSubmit 0 ⟨[], [], .missing⟩
         "I am an Indian applicant. What documents do I need for France and Germany study visas?").2
      = some "I am an Indian applicant. What documents do I need for France and Germany study visas?" :=
  ⟨by decide, by decide, by decide⟩

/-- Claim C8, counterexample: a stored value that is valid JSON but not of
the snapshot shape — here `{"messages": 5, "durations": 7}` — is not mapped
to the empty snapshot: `loadMessagesFromStorage` passes the truthy fields
through unvalidated. -/
theorem load_shape_counterexample :
    Page.loadMessagesFromStorage
        (.ok (.obj [("messages", .num 5), ("durations", .num 7)]))
      ≠ Page.emptySnapshot := by
  intro h
  have h1 : Json.num 5 = Json.arr [] := congrArg Prod.fst h
  exact Json.noConfusion h1

/-- Claim C8, amended: `loadMessagesFromStorage` returns the empty snapshot
when the stored value is missing, is not valid JSON, or parses to a value
whose `messages` and `durations` fields are absent or falsy; it never raises
to its caller (it is a total function), but a present truthy field of the
wrong shape is returned as-is rather than replaced by the empty snapshot. -/
theorem load_missing_corrupt_falsy_empty (j : Json)
    (hm : truthy (getField j "messages") = false)
    (hd : truthy (getField j "durations") = false) :
    Page.loadMessagesFromStorage .missing = Page.emptySnapshot
    ∧ Page.loadMessagesFromStorage .corrupt = Page.emptySnapshot
    ∧ Page.loadMessagesFromStorage (.ok j) = Page.emptySnapshot := by
  refine ⟨rfl, rfl, ?_⟩
  have e : Page.loadMessagesFromStorage (.ok j) =
      (jsOr (getField j "messages") (.arr []),
       jsOr (getField j "durations") (.obj [])) := rfl
  rw [e, jsOr_of_falsy hm, jsOr_of_falsy hd]
  rfl

theorem load_missing_corrupt_falsy_empty_witness :
    truthy (getField .null "messages") = false
    ∧ truthy (getField .null "durations") = false
    ∧ Page.loadMessagesFromStorage (.ok .null) = Page.emptySnapshot :=
  ⟨rfl, rfl, (load_missing_corrupt_falsy_empty .null rfl rfl).2.2⟩

/-- Claim C9: on a client session whose loaded history is empty and whose
once-flag is unset, the welcome effect installs exactly one assistant
welcome message and persists it; any state whose flag is set is left
untouched (at most once per session load); and a session restored with a
non-empty history receives no welcome message. -/
theorem welcome_message_once (now now2 : Nat) (isClient2 : Bool)
    (initial : List Msg) (st : Page.WelcomeState) :
    (st.shown = false →
       Page.welcomeEffect now true [] st =
         { messages := [Page.welcomeMsg now],
           store := Page.saveMessagesToStorage [Page.welcomeMsg now] [],
           shown := true }
       ∧ (Page.welcomeMsg now).role = .assistant
       ∧ [Page.welcomeMsg now].length = 1)
    ∧ (∀ st2 : Page.WelcomeState, st2.shown = true →
         Page.welcomeEffect now2 isClient2 initial st2 = st2)
    ∧ (initial ≠ [] → Page.welcomeEffect now2 isClient2 initial st = st) := by
  refine ⟨fun hshown => ⟨?_, rfl, rfl⟩, fun st2 h2 => ?_, fun hne => ?_⟩
  · unfold Page.welcomeEffect
    simp [hshown]
  · unfold Page.welcomeEffect
    simp [h2]
  · unfold Page.welcomeEffect
    simp [hne]

theorem welcome_message_once_witness :
    Page.welcomeEffect 0 true [] ⟨[], .missing, false⟩ =
      { messages := [Page.welcomeMsg 0],
        store := Page.saveMessagesToStorage [Page.welcomeMsg 0] [],
        shown := true }
    ∧ Page.welcomeEffect 1 true []
        ⟨[Page.welcomeMsg 0], Page.saveMessagesToStorage [Page.welcomeMsg 0] [], true⟩ =
        ⟨[Page.welcomeMsg 0], Page.saveMessagesToStorage [Page.welcomeMsg 0] [], true⟩
    ∧ Page.welcomeEffect 1 true [Page.welcomeMsg 0] ⟨[], .missing, false⟩ =
        ⟨[], .missing, false⟩ :=
  ⟨((welcome_message_once 0 1 true [Page.welcomeMsg 0] ⟨[], .missing, false⟩).1 rfl).1,
   (welcome_message_once 0 1 true [] ⟨[], .missing, false⟩).2.1
     ⟨[Page.welcomeMsg 0], Page.saveMessagesToStorage [Page.welcomeMsg 0] [], true⟩ rfl,
   (welcome_message_once 0 1 true [Page.welcomeMsg 0] ⟨[], .missing, false⟩).2.2
     (by simp)⟩

/-- Claim C10: every non-empty submission that does not classify `inScope`
appends exactly a user message followed by an assistant message at the end
of the existing history, leaves every earlier message and the durations
record unchanged, and forwards nothing to the backend. -/
theorem canned_submit_appends_two (now : Nat) (s : Page.AppState) (raw : String)
    (h1 : ¬ trimStr raw = "") (hv : Page.classify (trimStr raw) ≠ .inScope) :
    ∃ u a : Msg,
      (Page.onSubmit now s raw).1.messages = s.messages ++ [u, a]
      ∧ u.role = .user ∧ a.role = .assistant ∧ u.text = trimStr raw
      ∧ (Page.onSubmit now s raw).1.durations = s.durations
      ∧ (Page.onSubmit now s raw).2 = none := by
  by_cases hg : Page.greetings.contains (cleanLetters (normalizeText (trimStr raw))) = true
  · rw [Page.onSubmit_of_greeting now s raw h1 hg]
    exact ⟨_, _, rfl, rfl, rfl, rfl, rfl, rfl⟩
  · have hg' : Page.greetings.contains (cleanLetters (normalizeText (trimStr raw))) = false := by
      simpa using hg
    by_cases hc : Page.capabilityPhrases.contains (normalizeText (trimStr raw)) = true
    · rw [Page.onSubmit_of_capability now s raw h1 hg' hc]
      exact ⟨_, _, rfl, rfl, rfl, rfl, rfl, rfl⟩
    · have hc' : Page.capabilityPhrases.contains (normalizeText (trimStr raw)) = false := by
        simpa using hc
      by_cases hq : Page.isSchengenVisaQuery (normalizeText (trimStr raw)) = true
      · exact absurd (Page.classify_eq_inScope hg' hc' hq) hv
      · have hq' : Page.isSchengenVisaQuery (normalizeText (trimStr raw)) = false := by
          simpa using hq
        rw [Page.onSubmit_of_outOfScope now s raw h1 hg' hc' hq']
        exact ⟨_, _, rfl, rfl, rfl, rfl, rfl, rfl⟩

theorem canned_submit_appends_two_witness :
    ¬ trimStr "hello" = ""
    ∧ Page.classify (trimStr "hello") ≠ .inScope
    ∧ ∃ u a : Msg,
        (Page.onSubmit 0 ⟨[], [], .missing⟩ "hello").1.messages = [] ++ [u, a]
        ∧ u.role = .user ∧ a.role = .assistant ∧ u.text = trimStr "hello"
        ∧ (Page.onSubmit 0 ⟨[], [], .missing⟩ "hello").1.durations = []
        ∧ (Page.onSubmit 0 ⟨[], [], .missing⟩ "hello").2 = none :=
  ⟨by decide, by decide,
   canned_submit_appends_two 0 ⟨[], [], .missing⟩ "hello" (by decide) (by decide)⟩
